import Mathlib

/-!
Verification of the safe_cctype character-classification facade
(src/safe_cctype.hpp, namespace ctz::safe).

Modelling conventions:
* A C++ char value is modelled by its object-representation byte,
  an element of Fin 256 (type CChar below).  The signed value of a
  char (on the usual platforms where char is signed, range -128..127)
  is recovered by sval.
* The platform cctype facility is an external collaborator.  Its
  behaviour under one ambient locale state is modelled by a LocaleState
  structure: one conversion table per conversion routine
  (Fin 256 to Fin 256, per the documented contract the result is
  representable as an unsigned byte) and one integer-valued result
  table per classification routine (non-zero meaning true, as the
  C routines return int).
* The raw C routines take an int and are defined only on 0..255 and
  the EOF sentinel; outside that domain the behaviour is undefined.
  They are therefore modelled as Option-valued functions on Int,
  returning none exactly on the undefined-behaviour domain.
* The default "C" locale is modelled concretely (cLocale) with the
  ASCII semantics required of it by the C standard.
-/

/-- A char value, represented by its object-representation byte. -/
abbrev CChar := Fin 256

/-- The signed value of a char byte on a platform with signed char:
bytes 0..127 denote themselves, bytes 128..255 denote value minus 256. -/
def sval (c : CChar) : Int :=
  if c.val < 128 then (c.val : Int) else (c.val : Int) - 256

/-- static_cast to char of an int value: reduction modulo 256 to the
object-representation byte. -/
def charOfInt (x : Int) : CChar :=
  ⟨(x % 256).toNat, by
    have h1 : 0 ≤ x % 256 := Int.emod_nonneg x (by decide)
    have h2 : x % 256 < 256 := Int.emod_lt_of_pos x (by decide)
    omega⟩

/-- The EOF sentinel accepted by the platform facility. -/
def EOF : Int := -1

/-- One ambient locale state of the platform cctype facility:
the per-byte results of its conversion and classification routines.
Conversions return a value representable as an unsigned byte;
classifications return an int whose truth value is being non-zero. -/
structure LocaleState where
  up : CChar → CChar
  low : CChar → CChar
  alpha : CChar → Int
  digit : CChar → Int
  alnum : CChar → Int
  space : CChar → Int
  cntrl : CChar → Int
  punct : CChar → Int
  print : CChar → Int
  graph : CChar → Int
  xdigit : CChar → Int

/-- A raw platform conversion routine (std::toupper or std::tolower)
built from its per-byte table: defined on 0..255 (returning the table
entry) and on EOF (returning EOF), undefined behaviour elsewhere. -/
def ctyConv (f : CChar → CChar) (n : Int) : Option Int :=
  if h : 0 ≤ n ∧ n ≤ 255 then some ((f ⟨n.toNat, by omega⟩).val : Int)
  else if n = EOF then some EOF
  else none

/-- A raw platform classification routine built from its per-byte
result table: defined on 0..255 (returning the table entry) and on
EOF (returning zero), undefined behaviour elsewhere. -/
def ctyClass (f : CChar → Int) (n : Int) : Option Int :=
  if h : 0 ≤ n ∧ n ≤ 255 then some (f ⟨n.toNat, by omega⟩)
  else if n = EOF then some 0
  else none

/-- std::toupper under locale L. -/
def cty_toupper (L : LocaleState) : Int → Option Int := ctyConv L.up

/-- std::tolower under locale L. -/
def cty_tolower (L : LocaleState) : Int → Option Int := ctyConv L.low

/-- std::isalpha under locale L. -/
def cty_isalpha (L : LocaleState) : Int → Option Int := ctyClass L.alpha

/-- std::isdigit under locale L. -/
def cty_isdigit (L : LocaleState) : Int → Option Int := ctyClass L.digit

/-- std::isalnum under locale L. -/
def cty_isalnum (L : LocaleState) : Int → Option Int := ctyClass L.alnum

/-- std::isspace under locale L. -/
def cty_isspace (L : LocaleState) : Int → Option Int := ctyClass L.space

/-- std::iscntrl under locale L. -/
def cty_iscntrl (L : LocaleState) : Int → Option Int := ctyClass L.cntrl

/-- std::ispunct under locale L. -/
def cty_ispunct (L : LocaleState) : Int → Option Int := ctyClass L.punct

/-- std::isprint under locale L. -/
def cty_isprint (L : LocaleState) : Int → Option Int := ctyClass L.print

/-- std::isgraph under locale L. -/
def cty_isgraph (L : LocaleState) : Int → Option Int := ctyClass L.graph

/-- std::isxdigit under locale L. -/
def cty_isxdigit (L : LocaleState) : Int → Option Int := ctyClass L.xdigit

/-- Widening of a char to the unsigned-byte domain and promotion to
int: static_cast to unsigned char yields the object byte. -/
def toUByte (c : CChar) : Int := (c.val : Int)

/-- ctz::safe::to_upper: cast to unsigned char, delegate to
std::toupper, cast the result back to char.  none would mean the
delegated call had undefined behaviour. -/
def to_upper (L : LocaleState) (ch : CChar) : Option CChar :=
  (cty_toupper L (toUByte ch)).map charOfInt

/-- ctz::safe::to_lower: cast to unsigned char, delegate to
std::tolower, cast the result back to char. -/
def to_lower (L : LocaleState) (ch : CChar) : Option CChar :=
  (cty_tolower L (toUByte ch)).map charOfInt

/-- ctz::safe::is_alpha: cast to unsigned char, delegate to
std::isalpha, compare the result with zero. -/
def is_alpha (L : LocaleState) (ch : CChar) : Option Bool :=
  (cty_isalpha L (toUByte ch)).map (fun r => r != 0)

/-- ctz::safe::is_digit. -/
def is_digit (L : LocaleState) (ch : CChar) : Option Bool :=
  (cty_isdigit L (toUByte ch)).map (fun r => r != 0)

/-- ctz::safe::is_alnum. -/
def is_alnum (L : LocaleState) (ch : CChar) : Option Bool :=
  (cty_isalnum L (toUByte ch)).map (fun r => r != 0)

/-- ctz::safe::is_space. -/
def is_space (L : LocaleState) (ch : CChar) : Option Bool :=
  (cty_isspace L (toUByte ch)).map (fun r => r != 0)

/-- ctz::safe::is_cntrl. -/
def is_cntrl (L : LocaleState) (ch : CChar) : Option Bool :=
  (cty_iscntrl L (toUByte ch)).map (fun r => r != 0)

/-- ctz::safe::is_punct. -/
def is_punct (L : LocaleState) (ch : CChar) : Option Bool :=
  (cty_ispunct L (toUByte ch)).map (fun r => r != 0)

/-- ctz::safe::is_print. -/
def is_print (L : LocaleState) (ch : CChar) : Option Bool :=
  (cty_isprint L (toUByte ch)).map (fun r => r != 0)

/-- ctz::safe::is_graph. -/
def is_graph (L : LocaleState) (ch : CChar) : Option Bool :=
  (cty_isgraph L (toUByte ch)).map (fun r => r != 0)

/-- ctz::safe::is_xdigit. -/
def is_xdigit (L : LocaleState) (ch : CChar) : Option Bool :=
  (cty_isxdigit L (toUByte ch)).map (fun r => r != 0)

/-- ctz::safe::to_upper_inplace over a string, modelled as a list of
char bytes: std::transform applies the lambda, which takes the element
as unsigned char, calls std::toupper on it and casts the result back
to char, left to right over every position. -/
def to_upper_inplace (L : LocaleState) : List CChar → Option (List CChar)
  | [] => some []
  | c :: rest =>
    ((cty_toupper L (toUByte c)).map charOfInt).bind fun r =>
      (to_upper_inplace L rest).map fun rs => r :: rs

/-- ctz::safe::to_lower_inplace over a string, modelled as a list of
char bytes. -/
def to_lower_inplace (L : LocaleState) : List CChar → Option (List CChar)
  | [] => some []
  | c :: rest =>
    ((cty_tolower L (toUByte c)).map charOfInt).bind fun r =>
      (to_lower_inplace L rest).map fun rs => r :: rs

/-- ctz::safe::to_upper_copy: copy the input view into a fresh string
(the identity on the value) and convert that copy in place. -/
def to_upper_copy (L : LocaleState) (sv : List CChar) : Option (List CChar) :=
  to_upper_inplace L sv

/-- ctz::safe::to_lower_copy. -/
def to_lower_copy (L : LocaleState) (sv : List CChar) : Option (List CChar) :=
  to_lower_inplace L sv

/-- ctz::safe::ascii_to_upper: if the signed char value lies in the
range of lowercase ASCII letters, map it by the int arithmetic
ch - 97 + 65 cast back to char, otherwise return it unchanged.
Consults no locale. -/
def ascii_to_upper (ch : CChar) : CChar :=
  if 97 ≤ sval ch ∧ sval ch ≤ 122 then charOfInt (sval ch - 97 + 65) else ch

/-- ctz::safe::ascii_to_lower: if the signed char value lies in the
range of uppercase ASCII letters, map it by ch - 65 + 97 cast back to
char, otherwise return it unchanged.  Consults no locale. -/
def ascii_to_lower (ch : CChar) : CChar :=
  if 65 ≤ sval ch ∧ sval ch ≤ 90 then charOfInt (sval ch - 65 + 97) else ch

/-- ascii_to_upper presented with an ambient locale argument, which
the source function never reads: used to state locale independence. -/
def ascii_to_upper_amb (_L : LocaleState) (ch : CChar) : CChar := ascii_to_upper ch

/-- ascii_to_lower presented with an ambient locale argument, which
the source function never reads. -/
def ascii_to_lower_amb (_L : LocaleState) (ch : CChar) : CChar := ascii_to_lower ch

/-- The default "C" locale instance of the platform facility, with the
ASCII semantics the C standard fixes for it: case mapping on the 26
ASCII letters only, and the standard ASCII classification classes. -/
def cLocale : LocaleState where
  up b := if h : 97 ≤ b.val ∧ b.val ≤ 122 then ⟨b.val - 32, by omega⟩ else b
  low b := if h : 65 ≤ b.val ∧ b.val ≤ 90 then ⟨b.val + 32, by omega⟩ else b
  alpha b := if (65 ≤ b.val ∧ b.val ≤ 90) ∨ (97 ≤ b.val ∧ b.val ≤ 122) then 1 else 0
  digit b := if 48 ≤ b.val ∧ b.val ≤ 57 then 1 else 0
  alnum b := if (48 ≤ b.val ∧ b.val ≤ 57) ∨ (65 ≤ b.val ∧ b.val ≤ 90) ∨
      (97 ≤ b.val ∧ b.val ≤ 122) then 1 else 0
  space b := if b.val = 32 ∨ (9 ≤ b.val ∧ b.val ≤ 13) then 1 else 0
  cntrl b := if b.val ≤ 31 ∨ b.val = 127 then 1 else 0
  punct b := if (33 ≤ b.val ∧ b.val ≤ 126) ∧
      ¬ ((48 ≤ b.val ∧ b.val ≤ 57) ∨ (65 ≤ b.val ∧ b.val ≤ 90) ∨
         (97 ≤ b.val ∧ b.val ≤ 122)) then 1 else 0
  print b := if 32 ≤ b.val ∧ b.val ≤ 126 then 1 else 0
  graph b := if 33 ≤ b.val ∧ b.val ≤ 126 then 1 else 0
  xdigit b := if (48 ≤ b.val ∧ b.val ≤ 57) ∨ (65 ≤ b.val ∧ b.val ≤ 70) ∨
      (97 ≤ b.val ∧ b.val ≤ 102) then 1 else 0

/-- A locale permitted by the documented facility contract (every
conversion result is an unsigned byte) whose uppercase table is not
idempotent: it sends byte 97 to 98 and byte 98 to 99.  Its other
tables agree with the "C" locale. -/
def shiftLocale : LocaleState :=
  { cLocale with
    up := fun b => if b.val = 97 then ⟨98, by omega⟩
      else if b.val = 98 then ⟨99, by omega⟩ else b
    low := fun b => if b.val = 66 then ⟨65, by omega⟩
      else if b.val = 65 then ⟨90, by omega⟩ else b }

/-- A call of a raw conversion routine on a widened char byte is always
inside the defined domain and returns the per-byte table entry. -/
theorem ctyConv_byte (f : CChar → CChar) (c : CChar) :
    ctyConv f (toUByte c) = some ((f c).val : Int) := by
  have hc := c.isLt
  simp only [ctyConv, toUByte]
  rw [dif_pos ⟨Int.natCast_nonneg _, by omega⟩]
  rfl

/-- A call of a raw classification routine on a widened char byte is
always inside the defined domain and returns the per-byte table entry. -/
theorem ctyClass_byte (f : CChar → Int) (c : CChar) :
    ctyClass f (toUByte c) = some (f c) := by
  have hc := c.isLt
  simp only [ctyClass, toUByte]
  rw [dif_pos ⟨Int.natCast_nonneg _, by omega⟩]
  rfl

/-- to_upper is total: it returns the narrowed table entry for the
widened input byte. -/
theorem to_upper_eq (L : LocaleState) (c : CChar) :
    to_upper L c = some (charOfInt ((L.up c).val : Int)) := by
  simp [to_upper, cty_toupper, ctyConv_byte]

/-- to_lower is total: it returns the narrowed table entry for the
widened input byte. -/
theorem to_lower_eq (L : LocaleState) (c : CChar) :
    to_lower L c = some (charOfInt ((L.low c).val : Int)) := by
  simp [to_lower, cty_tolower, ctyConv_byte]

/-- The in-place uppercase transform is total and maps every position
independently through the per-character conversion. -/
theorem to_upper_inplace_eq (L : LocaleState) (s : List CChar) :
    to_upper_inplace L s = some (s.map fun c => charOfInt ((L.up c).val : Int)) := by
  induction s with
  | nil => rfl
  | cons a t ih => simp [to_upper_inplace, cty_toupper, ctyConv_byte, ih]

/-- The in-place lowercase transform is total and maps every position
independently through the per-character conversion. -/
theorem to_lower_inplace_eq (L : LocaleState) (s : List CChar) :
    to_lower_inplace L s = some (s.map fun c => charOfInt ((L.low c).val : Int)) := by
  induction s with
  | nil => rfl
  | cons a t ih => simp [to_lower_inplace, cty_tolower, ctyConv_byte, ih]

/-- Claim C1: for every byte value, under every ambient locale state,
each classification predicate and each single-character conversion of
the facade is defined (the delegated platform call stays inside its
defined domain, so there is no undefined behaviour) and returns the
platform routine result for the input widened to the unsigned-byte
domain: conversions narrow that result back to char, classifications
compare it with zero. -/
theorem claim_C1 (L : LocaleState) (c : CChar) :
    (∃ r, cty_toupper L (toUByte c) = some r ∧ to_upper L c = some (charOfInt r)) ∧
    (∃ r, cty_tolower L (toUByte c) = some r ∧ to_lower L c = some (charOfInt r)) ∧
    (∃ r, cty_isalpha L (toUByte c) = some r ∧ is_alpha L c = some (r != 0)) ∧
    (∃ r, cty_isdigit L (toUByte c) = some r ∧ is_digit L c = some (r != 0)) ∧
    (∃ r, cty_isalnum L (toUByte c) = some r ∧ is_alnum L c = some (r != 0)) ∧
    (∃ r, cty_isspace L (toUByte c) = some r ∧ is_space L c = some (r != 0)) ∧
    (∃ r, cty_iscntrl L (toUByte c) = some r ∧ is_cntrl L c = some (r != 0)) ∧
    (∃ r, cty_ispunct L (toUByte c) = some r ∧ is_punct L c = some (r != 0)) ∧
    (∃ r, cty_isprint L (toUByte c) = some r ∧ is_print L c = some (r != 0)) ∧
    (∃ r, cty_isgraph L (toUByte c) = some r ∧ is_graph L c = some (r != 0)) ∧
    (∃ r, cty_isxdigit L (toUByte c) = some r ∧ is_xdigit L c = some (r != 0)) := by
  refine ⟨⟨((L.up c).val : Int), ?_, ?_⟩, ⟨((L.low c).val : Int), ?_, ?_⟩,
    ⟨L.alpha c, ?_, ?_⟩, ⟨L.digit c, ?_, ?_⟩, ⟨L.alnum c, ?_, ?_⟩, ⟨L.space c, ?_, ?_⟩,
    ⟨L.cntrl c, ?_, ?_⟩, ⟨L.punct c, ?_, ?_⟩, ⟨L.print c, ?_, ?_⟩, ⟨L.graph c, ?_, ?_⟩,
    ⟨L.xdigit c, ?_, ?_⟩⟩ <;>
  simp [cty_toupper, cty_tolower, cty_isalpha, cty_isdigit, cty_isalnum, cty_isspace,
    cty_iscntrl, cty_ispunct, cty_isprint, cty_isgraph, cty_isxdigit,
    to_upper, to_lower, is_alpha, is_digit, is_alnum, is_space, is_cntrl, is_punct,
    is_print, is_graph, is_xdigit, ctyConv_byte, ctyClass_byte]

set_option maxRecDepth 100000 in
/-- Claim C2: in the signed char value view, ascii_to_upper maps the
range 97..122 by subtracting 97 and adding 65 and fixes every other
byte value; ascii_to_lower maps 65..90 by subtracting 65 and adding 97
and fixes every other byte value. -/
theorem claim_C2 (c : CChar) :
    (97 ≤ sval c ∧ sval c ≤ 122 → sval (ascii_to_upper c) = sval c - 97 + 65) ∧
    (¬ (97 ≤ sval c ∧ sval c ≤ 122) → ascii_to_upper c = c) ∧
    (65 ≤ sval c ∧ sval c ≤ 90 → sval (ascii_to_lower c) = sval c - 65 + 97) ∧
    (¬ (65 ≤ sval c ∧ sval c ≤ 90) → ascii_to_lower c = c) := by
  revert c
  decide

/-- Witness for claim C2 at byte 97 (lowercase a), byte 90 (uppercase
Z) and byte 223 (the non-ASCII byte 0xDF, signed value -33). -/
theorem claim_C2_witness :
    sval (ascii_to_upper 97) = 65 ∧ ascii_to_upper 223 = 223 ∧
    sval (ascii_to_lower 90) = 122 ∧ ascii_to_lower 223 = 223 := by
  refine ⟨?_, ?_, ?_, ?_⟩
  · rw [(claim_C2 97).1 (by decide)]; decide
  · exact (claim_C2 223).2.1 (by decide)
  · rw [(claim_C2 90).2.2.1 (by decide)]; decide
  · exact (claim_C2 223).2.2.2 (by decide)

set_option maxRecDepth 100000 in
/-- Claim C3: under the default C locale, the locale-aware conversions
agree with the ASCII fast path on every one of the 256 byte values. -/
theorem claim_C3 : ∀ c : CChar,
    to_upper cLocale c = some (ascii_to_upper c) ∧
    to_lower cLocale c = some (ascii_to_lower c) := by
  decide

set_option maxRecDepth 100000 in
/-- Claim C4: the ASCII fast-path conversions return the same result
under any two ambient locale states, whereas the locale-aware
conversions can differ between two locale states. -/
theorem claim_C4 :
    (∀ (L1 L2 : LocaleState) (c : CChar),
      ascii_to_upper_amb L1 c = ascii_to_upper_amb L2 c ∧
      ascii_to_lower_amb L1 c = ascii_to_lower_amb L2 c) ∧
    (∃ (L1 L2 : LocaleState) (c : CChar), to_upper L1 c ≠ to_upper L2 c) ∧
    (∃ (L1 L2 : LocaleState) (c : CChar), to_lower L1 c ≠ to_lower L2 c) := by
  refine ⟨fun L1 L2 c => ⟨rfl, rfl⟩,
    ⟨cLocale, shiftLocale, 97, ?_⟩, ⟨cLocale, shiftLocale, 66, ?_⟩⟩ <;> decide

set_option maxRecDepth 100000 in
/-- Counterexample to claim C5 as stated: under the ambient locale
state shiftLocale, which the documented facility contract permits,
to_upper is not idempotent at byte 97. -/
theorem claim_C5_counterexample :
    ¬ ((to_upper shiftLocale 97).bind (to_upper shiftLocale) =
        to_upper shiftLocale 97) := by
  decide

set_option maxRecDepth 100000 in
/-- Claim C5 amended: under the default C locale, to_upper and
to_lower are idempotent on every one of the 256 byte values. -/
theorem claim_C5 : ∀ c : CChar,
    (to_upper cLocale c).bind (to_upper cLocale) = to_upper cLocale c ∧
    (to_lower cLocale c).bind (to_lower cLocale) = to_lower cLocale c := by
  decide

set_option maxRecDepth 100000 in
/-- Claim C6: under the default C locale, for every ASCII letter,
to_lower after to_upper agrees with to_lower, and to_upper after
to_lower agrees with to_upper. -/
theorem claim_C6 : ∀ c : CChar,
    (65 ≤ c.val ∧ c.val ≤ 90) ∨ (97 ≤ c.val ∧ c.val ≤ 122) →
    (to_upper cLocale c).bind (to_lower cLocale) = to_lower cLocale c ∧
    (to_lower cLocale c).bind (to_upper cLocale) = to_upper cLocale c := by
  decide

/-- Witness for claim C6 at byte 97 (lowercase a). -/
theorem claim_C6_witness :
    (to_upper cLocale 97).bind (to_lower cLocale) = to_lower cLocale 97 ∧
    (to_lower cLocale 97).bind (to_upper cLocale) = to_upper cLocale 97 :=
  claim_C6 97 (by decide)

set_option maxRecDepth 100000 in
/-- Claim C7: under the default C locale, every byte that is_alpha
rejects is a fixed point of to_upper and of to_lower. -/
theorem claim_C7 : ∀ c : CChar,
    is_alpha cLocale c = some false →
    to_upper cLocale c = some c ∧ to_lower cLocale c = some c := by
  decide

/-- Witness for claim C7 at byte 48 (the digit zero). -/
theorem claim_C7_witness :
    to_upper cLocale 48 = some 48 ∧ to_lower cLocale 48 = some 48 :=
  claim_C7 48 (by decide)

/-- Claim C8: for every ambient locale state and every string,
including the empty one, the in-place transforms succeed and return
exactly what the copying transforms return; the result has the length
of the input, equals the input mapped position by position through the
per-byte conversion, and that per-position conversion is exactly the
single-character transform of the facade. -/
theorem claim_C8 (L : LocaleState) (s : List CChar) :
    ∃ u v,
      to_upper_inplace L s = some u ∧ to_upper_copy L s = some u ∧
      to_lower_inplace L s = some v ∧ to_lower_copy L s = some v ∧
      u.length = s.length ∧ v.length = s.length ∧
      u = s.map (fun c => charOfInt ((L.up c).val : Int)) ∧
      v = s.map (fun c => charOfInt ((L.low c).val : Int)) ∧
      (∀ c : CChar, to_upper L c = some (charOfInt ((L.up c).val : Int))) ∧
      (∀ c : CChar, to_lower L c = some (charOfInt ((L.low c).val : Int))) :=
  ⟨_, _, to_upper_inplace_eq L s, to_upper_inplace_eq L s,
    to_lower_inplace_eq L s, to_lower_inplace_eq L s,
    by simp, by simp, rfl, rfl, to_upper_eq L, to_lower_eq L⟩

set_option maxRecDepth 100000 in
/-- Claim C10: the ASCII fast-path conversions satisfy the absorption
round trips and are idempotent on every one of the 256 byte values. -/
theorem claim_C10 : ∀ c : CChar,
    ascii_to_upper (ascii_to_lower c) = ascii_to_upper c ∧
    ascii_to_lower (ascii_to_upper c) = ascii_to_lower c ∧
    ascii_to_upper (ascii_to_upper c) = ascii_to_upper c ∧
    ascii_to_lower (ascii_to_lower c) = ascii_to_lower c := by
  decide
